import Mathlib

/-!
Shallow embedding of the smart-plant irrigation/fertilization controller
(`ESP32.cpp` and the modularized `esp32_codes/` variant) together with
theorems checking the natural-language specification against the code.

The embedding covers the decision core: the schedule engine
(`checkAndExecuteSchedules` in `esp32_codes/schedule_manager.cpp`,
`checkSchedules` plus the actuator blocks of `loop` in `ESP32.cpp`),
the actuator start/stop logic (`esp32_codes/relay_manager.cpp` and the
water/fertilizer blocks of `loop` in `ESP32.cpp`), the SMS notification
queue (`processSMSQueue` in `esp32_codes/gsm_manager.cpp`), and the GSM
session recovery machine (`checkGSMStatus`).  Hardware and network I/O
(modem bytes, HTTP, pins, Serial) is abstracted exactly at the boundary
the code itself exposes: the outcome of one `sendSMS` call to one phone
number, and the outcome of one `initGSM` handshake.

Machine integers: `millis()` timestamps are `Nat` (monotone, no overflow
within the runs considered, matching the code's unsigned subtraction on
increasing clocks); C `int` values (moisture percent, retries, minutes,
thresholds) are `Int`.
-/

set_option maxHeartbeats 1600000

namespace Plant

/-! ### Arduino primitives -/

namespace ArduinoString

/-- Accumulates the leading decimal digits of a character list, stopping at
the first non-digit, as C `atol` does after sign handling. -/
def digitsValue : List Char → Nat → Nat
  | c :: cs, acc => if c.isDigit then digitsValue cs (10 * acc + (c.toNat - 48)) else acc
  | [], acc => acc

/-- Embeds Arduino `String::toInt()`, which calls `atol` on the underlying
C string: skip leading whitespace, optional sign, then leading digits; a
string with no leading digits (e.g. a MongoDB `_id` such as "abc123" that
starts with a letter... actually any non-digit-leading id) yields 0. -/
def toInt (s : String) : Int :=
  match s.data.dropWhile (fun c => c == ' ' || c == '\t' || c == '\n' || c == '\r') with
  | '-' :: cs => -(digitsValue cs 0 : Int)
  | '+' :: cs => (digitsValue cs 0 : Int)
  | cs => (digitsValue cs 0 : Int)

end ArduinoString

/-- Embeds Arduino `String::equalsIgnoreCase` (ASCII case-insensitive
comparison), used for weekday-name matching in the schedule engine. -/
def equalsIgnoreCase (a b : String) : Bool :=
  a.data.map Char.toLower == b.data.map Char.toLower

/-! ### Data model -/

/-- Wall-clock snapshot delivered by `getLocalTime` as the code consumes it:
`tm_min`, `tm_mday`, and the two `strftime` renderings used for matching
("%H:%M" and "%A"). -/
structure TimeInfo where
  tm_min : Int
  tm_mday : Int
  hhmm : String
  dayName : String
deriving Repr, DecidableEq

/-- Embeds `struct Schedule` from `esp32_codes/config.cpp` / `ESP32.cpp`:
`id` is a `String` ("to match MongoDB _id"). -/
structure Schedule where
  id : String
  type : String
  time : String
  duration : Int
  enabled : Bool
  days : List String
  moistureThreshold : Int
  moistureMode : String
  calendarDays : List Int
deriving Repr, DecidableEq

/-- A schedule firing observed at the point where `checkAndExecuteSchedules`
(resp. `checkSchedules`) marks a schedule triggered and invokes its action;
recorded as a ghost output of the embedded step functions. -/
structure FireEvent where
  schedule_id : String
  kind : String
deriving Repr, DecidableEq

/-- Embeds `struct SMSMessage` (`message`, `retries`, `nextAttempt`). -/
structure SMSMessage where
  message : String
  retries : Int
  nextAttempt : Nat
deriving Repr, DecidableEq

/-! ### Constants (from `ESP32.cpp` / `esp32_codes/config.cpp`) -/

def dryThreshold : Int := 60
def humidThreshold : Int := 35
def disconnectedThreshold : Int := 95
def waterOnDuration : Nat := 30000
def fertilizerOnDuration : Nat := 50000
def MAX_SMS_RETRIES : Int := 3
def SMS_RETRY_INTERVAL : Nat := 10000
def GSM_RETRY_INTERVAL : Nat := 60000
def NUM_PHONES : Nat := 2

/-! ### Sensor classification -/

/-- Embeds `getMoistureStatus` (`esp32_codes/sensor_manager.cpp` lines 36-42,
identical in `ESP32.cpp` lines 505-511), including the trailing fallback
return. -/
def getMoistureStatus (moisturePercent : Int) : String :=
  if moisturePercent ≥ 95 then "SENSOR ERROR"
  else if moisturePercent ≤ 35 then "DRY"
  else if moisturePercent ≤ 65 then "HUMID"
  else if moisturePercent > 65 then "WET"
  else "SENSOR ERROR"

/-! ### Schedule engine (`esp32_codes/schedule_manager.cpp`) -/

/-- Embeds `isFertilizingScheduled`: a fertilizing schedule matches when some
calendar day equals the current day of month and the schedule time equals the
current "%H:%M" string. -/
def isFertilizingScheduled (s : Schedule) (currentDay : Int) (currentTime : String) : Bool :=
  s.type == "fertilizing" &&
    s.calendarDays.any (fun day => day == currentDay && s.time == currentTime)

/-- The `shouldRun` computation of `checkAndExecuteSchedules` (lines 152-166):
fertilizing schedules match by calendar day, watering schedules by "%H:%M"
time equality plus case-insensitive weekday membership. -/
def scheduleShouldRun (s : Schedule) (t : TimeInfo) : Bool :=
  if s.type == "fertilizing" then
    isFertilizingScheduled s t.tm_mday t.hhmm
  else if s.type == "watering" then
    s.time == t.hhmm && s.days.any (fun day => equalsIgnoreCase day t.dayName)
  else
    false

/-- State touched by the modular schedule/relay path: the trigger ledger
(`std::map<int,bool> triggeredSchedules`, represented as the list of `int`
keys currently mapped to `true`, plus `lastMinute`), the two actuator flags
with their start timestamps, and the SMS queue. -/
structure SysState where
  lastMinute : Int
  triggered : List Int
  waterState : Bool
  previousWaterMillis : Nat
  fertilizerState : Bool
  previousFertilizerMillis : Nat
  smsQueue : List SMSMessage
deriving Repr, DecidableEq

/-- Embeds `queueSMS`: append with `retries = 0`, `nextAttempt = millis()`. -/
def queueSMS (ms : Nat) (msg : String) (q : List SMSMessage) : List SMSMessage :=
  q ++ [⟨msg, 0, ms⟩]

/-- Embeds `startWatering` (`esp32_codes/relay_manager.cpp` lines 24-36):
set `waterState`, record `previousWaterMillis`, enqueue the started SMS. -/
def startWatering (ms : Nat) (reason : String) (st : SysState) : SysState :=
  { st with waterState := true, previousWaterMillis := ms,
            smsQueue := queueSMS ms ("Smart Plant System: Started watering. " ++ reason) st.smsQueue }

/-- Embeds `startFertilizing` (`esp32_codes/relay_manager.cpp` lines 54-66). -/
def startFertilizing (ms : Nat) (reason : String) (st : SysState) : SysState :=
  { st with fertilizerState := true, previousFertilizerMillis := ms,
            smsQueue := queueSMS ms ("Smart Plant System: Started fertilizing. " ++ reason) st.smsQueue }

/-- The action taken by `checkAndExecuteSchedules` once `shouldRun` holds
(lines 171-178): watering schedules call `startWatering`, fertilizing ones
`startFertilizing`, each with the "Scheduled ... for N minutes" reason. -/
def execFire (ms : Nat) (s : Schedule) (st : SysState) : SysState :=
  if s.type == "watering" then
    startWatering ms ("Scheduled watering for " ++ toString s.duration ++ " minutes") st
  else if s.type == "fertilizing" then
    startFertilizing ms ("Scheduled fertilizing for " ++ toString s.duration ++ " minutes") st
  else st

/-- One iteration of the schedule loop in `checkAndExecuteSchedules`
(lines 147-180): skip when disabled or when the ledger already holds
`schedule.id.toInt()` (note the `int` keying of the `String` id); otherwise,
when `shouldRun`, mark `triggeredSchedules[schedule.id.toInt()] = true` and
run the action. -/
def execSchedule (ms : Nat) (t : TimeInfo) (s : Schedule) (st : SysState) :
    Option FireEvent × SysState :=
  if s.enabled = false ∨ ArduinoString.toInt s.id ∈ st.triggered then
    (none, st)
  else if scheduleShouldRun s t then
    (some ⟨s.id, s.type⟩,
     execFire ms s { st with triggered := ArduinoString.toInt s.id :: st.triggered })
  else
    (none, st)

/-- The schedule loop of `checkAndExecuteSchedules`, processing the fetched
schedule list in order. -/
def execSchedulesList (ms : Nat) (t : TimeInfo) : List Schedule → SysState → List FireEvent × SysState
  | [], st => ([], st)
  | s :: rest, st =>
    let r := execSchedule ms t s st
    let r' := execSchedulesList ms t rest r.2
    (r.1.toList ++ r'.1, r'.2)

/-- Embeds `checkAndExecuteSchedules` (`esp32_codes/schedule_manager.cpp`
lines 126-181): clear the whole trigger ledger when the observed `tm_min`
differs from the remembered one, then evaluate every schedule. -/
def checkAndExecuteSchedules (ms : Nat) (t : TimeInfo) (schedules : List Schedule)
    (st : SysState) : List FireEvent × SysState :=
  let st0 := if t.tm_min ≠ st.lastMinute
             then { st with triggered := [], lastMinute := t.tm_min }
             else st
  execSchedulesList ms t schedules st0

/-- Several consecutive loop passes through `checkAndExecuteSchedules`; each
tick supplies `millis()`, the time snapshot, and the current (possibly
refreshed) schedule list. -/
def runTicks : List (Nat × TimeInfo × List Schedule) → SysState → List FireEvent × SysState
  | [], st => ([], st)
  | (ms, t, ss) :: rest, st =>
    let r := checkAndExecuteSchedules ms t ss st
    let r' := runTicks rest r.2
    (r.1 ++ r'.1, r'.2)

/-- Number of fire events carrying a given schedule id. -/
def countFires (x : String) : List FireEvent → Nat
  | [] => 0
  | f :: fs => (if f.schedule_id = x then 1 else 0) + countFires x fs

/-! ### GSM session machine and SMS queue (`esp32_codes/gsm_manager.cpp`) -/

/-- Embeds `enum GSMStatus`. -/
inductive GSMStatus
  | GSM_ERROR
  | GSM_READY
  | GSM_WAITING
deriving Repr, DecidableEq

/-- Outcome of one `sendSMS` call to one phone number, as observable by
`processSMSQueue`: delivered (`success`), failed without tripping the module
(`softFail`, `sendSMS` returns false with `gsmStatus` untouched), or failed
hard (`hardFail`, `sendSMS` returns false after setting
`gsmStatus = GSM_ERROR`, which breaks the recipient loop). -/
inductive SendOutcome
  | success
  | softFail
  | hardFail
deriving Repr, DecidableEq

/-- State owned by the GSM manager: module status, recovery cooldown stamp,
global send cooldown stamp, and the SMS queue. -/
structure GSMState where
  gsmStatus : GSMStatus
  lastGSMRetry : Nat
  lastSMSAttempt : Nat
  smsQueue : List SMSMessage
deriving Repr, DecidableEq

/-- Embeds the outcome of `initGSM`: the modem handshake (AT probe, reset,
network registration, text mode) is the external handshake primitive; every
failing path sets `gsmStatus = GSM_ERROR`, the success path sets
`gsmStatus = GSM_READY`. -/
def initGSM (handshakeOk : Bool) : GSMStatus :=
  if handshakeOk then .GSM_READY else .GSM_ERROR

/-- Embeds `checkGSMStatus` (`esp32_codes/gsm_manager.cpp` lines 108-118):
attempt recovery only in `GSM_ERROR` and only once `GSM_RETRY_INTERVAL` has
elapsed since `lastGSMRetry`; `lastGSMRetry = millis()` is written after the
attempt whether or not `initGSM` succeeded. -/
def checkGSMStatus (now : Nat) (handshakeOk : Bool) (g : GSMState) : GSMState :=
  if g.gsmStatus = .GSM_ERROR ∧ GSM_RETRY_INTERVAL ≤ now - g.lastGSMRetry then
    { g with gsmStatus := initGSM handshakeOk, lastGSMRetry := now }
  else g

/-- The recipient loop of `processSMSQueue` (lines 190-195): try phone `i`,
stop at the first success, continue on a soft failure, and break out with
`gsmStatus = GSM_ERROR` on a hard failure.  `remaining` counts the phone
numbers not yet tried (`NUM_PHONES` at the start). -/
def sendAttempt (send : Nat → SendOutcome) : Nat → Nat → GSMStatus → Bool × GSMStatus
  | _, 0, status => (false, status)
  | i, remaining + 1, status =>
    match send i with
    | .success => (true, status)
    | .softFail => sendAttempt send (i + 1) remaining status
    | .hardFail => (false, .GSM_ERROR)

/-- Embeds `processSMSQueue` (`esp32_codes/gsm_manager.cpp` lines 175-204).
The returned `Bool` is a ghost flag: `true` exactly when the head message
consumed a send attempt this call.  When the module is not `GSM_READY` the
function only polls `checkGSMStatus` and returns; otherwise it processes the
head of the queue, and only past the global cooldown and the head's
`nextAttempt` stamp. -/
def processSMSQueue (now : Nat) (handshakeOk : Bool) (send : Nat → SendOutcome)
    (g : GSMState) : GSMState × Bool :=
  if g.gsmStatus ≠ .GSM_READY then
    (checkGSMStatus now handshakeOk g, false)
  else if g.smsQueue = [] ∨ now - g.lastSMSAttempt < SMS_RETRY_INTERVAL then
    (g, false)
  else
    match g.smsQueue with
    | [] => (g, false)
    | sms :: rest =>
      if sms.nextAttempt ≤ now then
        let r := sendAttempt send 0 NUM_PHONES g.gsmStatus
        let g1 := { g with gsmStatus := r.2, lastSMSAttempt := now }
        if r.1 = true ∨ sms.retries ≥ MAX_SMS_RETRIES then
          ({ g1 with smsQueue := rest }, true)
        else
          ({ g1 with smsQueue :=
              { sms with retries := sms.retries + 1,
                         nextAttempt := now + SMS_RETRY_INTERVAL } :: rest }, true)
      else (g, false)

/-- Several consecutive `processSMSQueue` calls at the given `millis()`
values, counting how many send attempts were consumed in total. -/
def runDrains (handshakeOk : Bool) (send : Nat → SendOutcome) :
    List Nat → GSMState → GSMState × Nat
  | [], g => (g, 0)
  | t :: ts, g =>
    let r := processSMSQueue t handshakeOk send g
    let r' := runDrains handshakeOk send ts r.1
    (r'.1, (if r.2 then 1 else 0) + r'.2)

/-- A sender for which every `sendSMS` call fails softly (no recipient ever
succeeds and the module stays responsive). -/
def allFail : Nat → SendOutcome := fun _ => .softFail

/-! ### Monolithic `ESP32.cpp` loop: water/fertilizer blocks and
`checkSchedules` -/

/-- Global state of the `ESP32.cpp` sketch that the embedded loop fragments
read and write (`waterState`, `previousWaterMillis`, `fertilizerState`,
`previousFertilizerMillis`, the sticky `isScheduledDate` flag, the trigger
ledger with its `currentMinute`, and the SMS queue). -/
structure LoopState where
  waterState : Bool
  previousWaterMillis : Nat
  fertilizerState : Bool
  previousFertilizerMillis : Nat
  isScheduledDate : Bool
  currentMinute : Int
  triggeredSchedules : List Int
  smsQueue : List SMSMessage
deriving Repr, DecidableEq

/-- The schedule lookup at `ESP32.cpp` lines 822-828 (identical in
`manageWaterPump`, `relay_manager.cpp` lines 97-103): the first schedule in
list order with `type == "watering" && enabled`. -/
def findEnabledWatering : List Schedule → Option Schedule
  | [] => none
  | s :: rest => if s.type == "watering" && s.enabled then some s else findEnabledWatering rest

/-- The stop test of the water block (`ESP32.cpp` line 791-792): duration
elapsed, or moisture at/below the dry threshold, or moisture at/above the
disconnect ceiling. -/
def waterStopCondition (currentMillis previousWaterMillis : Nat) (moisturePercent : Int) : Bool :=
  decide (waterOnDuration ≤ currentMillis - previousWaterMillis) ||
  decide (moisturePercent ≤ dryThreshold) ||
  decide (moisturePercent ≥ disconnectedThreshold)

/-- The stop-reason chain (`ESP32.cpp` lines 796-806): disconnect ceiling
first, then dry threshold, then duration; only the first matching reason is
produced. -/
def waterStopReason (moisturePercent : Int) : String :=
  if moisturePercent ≥ disconnectedThreshold then "Sensor disconnected or not in soil"
  else if moisturePercent ≤ dryThreshold then "Target moisture level reached"
  else "Duration completed"

/-- The stop SMS text chain (`ESP32.cpp` lines 808-815), same priority
order. -/
def waterStopSMS (moisturePercent : Int) : String :=
  if moisturePercent ≥ disconnectedThreshold then
    "Smart Plant System: Watering stopped. Reason: Sensor disconnected or not in soil."
  else if moisturePercent ≤ dryThreshold then
    "Smart Plant System: Watering stopped. Soil is now humid/wet."
  else
    "Smart Plant System: Watering cycle completed."

/-- Embeds the water-pump block of `loop` (`ESP32.cpp` lines 789-848): while
running, stop (with the priority-ordered reason SMS) when the stop test
holds; while idle, consult only the first enabled watering schedule and start
when its mode is "auto" and moisture lies strictly between its threshold and
the disconnect ceiling. -/
def waterControlStep (currentMillis : Nat) (moisturePercent : Int) (schedules : List Schedule)
    (st : LoopState) : LoopState :=
  if st.waterState then
    if waterStopCondition currentMillis st.previousWaterMillis moisturePercent then
      { st with waterState := false,
                smsQueue := queueSMS currentMillis (waterStopSMS moisturePercent) st.smsQueue }
    else st
  else
    let activeSchedule := findEnabledWatering schedules
    let currentThreshold := match activeSchedule with
      | some s => s.moistureThreshold
      | none => 60
    let isAutoMode := match activeSchedule with
      | some s => s.moistureMode == "auto"
      | none => false
    if isAutoMode = true ∧ currentThreshold < moisturePercent ∧
        moisturePercent < disconnectedThreshold then
      { st with waterState := true, previousWaterMillis := currentMillis,
                smsQueue := queueSMS currentMillis
                  ("Smart Plant System: Started watering. Soil is dry (" ++
                   toString moisturePercent ++ "%, Threshold: " ++
                   toString currentThreshold ++ "%)") st.smsQueue }
    else st

/-- Embeds the fertilizer block of `loop` (`ESP32.cpp` lines 851-878): while
running, stop on elapsed `fertilizerOnDuration`; while idle, start whenever
the `isScheduledDate` flag is set (the flag is set by `checkSchedules` and
never cleared anywhere in the sketch). -/
def fertilizerControlStep (currentMillis : Nat) (currentDate : String) (st : LoopState) : LoopState :=
  if st.fertilizerState then
    if fertilizerOnDuration ≤ currentMillis - st.previousFertilizerMillis then
      { st with fertilizerState := false,
                smsQueue := queueSMS currentMillis
                  "Smart Plant System: Fertilizer cycle completed." st.smsQueue }
    else st
  else
    if st.isScheduledDate then
      { st with fertilizerState := true, previousFertilizerMillis := currentMillis,
                smsQueue := queueSMS currentMillis
                  ("Smart Plant System: Starting scheduled fertilizing for day " ++ currentDate)
                  st.smsQueue }
    else st

/-- The schedule loop of `checkSchedules` in `ESP32.cpp` (lines 689-711):
fertilizing schedules that match set `isScheduledDate` and are marked in the
`int`-keyed ledger; the watering branch's body is elided in the source
("... existing watering schedule code ...") and therefore contributes
nothing here. -/
def checkSchedulesGo (t : TimeInfo) : List Schedule → LoopState → LoopState × List FireEvent
  | [], st => (st, [])
  | s :: rest, st =>
    if s.enabled = false ∨ ArduinoString.toInt s.id ∈ st.triggeredSchedules then
      checkSchedulesGo t rest st
    else if s.type == "fertilizing" then
      if isFertilizingScheduled s t.tm_mday t.hhmm then
        let st' := { st with isScheduledDate := true,
                             triggeredSchedules :=
                               ArduinoString.toInt s.id :: st.triggeredSchedules }
        let r := checkSchedulesGo t rest st'
        (r.1, ⟨s.id, "fertilizing"⟩ :: r.2)
      else checkSchedulesGo t rest st
    else
      checkSchedulesGo t rest st

/-- Embeds `checkSchedules` from `ESP32.cpp` (lines 663-712): clear the
ledger on a `tm_min` change, then scan the schedule list. -/
def checkSchedulesESP (t : TimeInfo) (schedules : List Schedule) (st : LoopState) :
    LoopState × List FireEvent :=
  let st0 := if t.tm_min ≠ st.currentMinute
             then { st with triggeredSchedules := [], currentMinute := t.tm_min }
             else st
  checkSchedulesGo t schedules st0

/-- One pass of the `ESP32.cpp` `loop` restricted to the decision core, in
source order: water block (line 789), fertilizer block (line 851), then
`checkSchedules()` (line 890). -/
def loopTick (currentMillis : Nat) (moisturePercent : Int) (t : TimeInfo) (currentDate : String)
    (schedules : List Schedule) (st : LoopState) : LoopState × List FireEvent :=
  let st1 := waterControlStep currentMillis moisturePercent schedules st
  let st2 := fertilizerControlStep currentMillis currentDate st1
  checkSchedulesESP t schedules st2

/-- Several consecutive `loop` passes; each tick supplies `millis()`,
the moisture percent, the time snapshot, and the `currentDate` string. -/
def runLoopTicks : List (Nat × Int × TimeInfo × String) → List Schedule → LoopState →
    LoopState × List FireEvent
  | [], _, st => (st, [])
  | (ms, m, t, d) :: rest, ss, st =>
    let r := loopTick ms m t d ss st
    let r' := runLoopTicks rest ss r.1
    (r'.1, r.2 ++ r'.2)

/-! ### Concrete fixtures used by the witness and counterexample theorems -/

/-- Fresh `SysState` at boot (`lastMinute = -1`, empty ledger and queue,
both actuators idle). -/
def sysInit : SysState :=
  { lastMinute := -1, triggered := [], waterState := false, previousWaterMillis := 0,
    fertilizerState := false, previousFertilizerMillis := 0, smsQueue := [] }

/-- Fresh `LoopState` at boot (`currentMinute = -1` per `ESP32.cpp` line 93). -/
def loopInit : LoopState :=
  { waterState := false, previousWaterMillis := 0, fertilizerState := false,
    previousFertilizerMillis := 0, isScheduledDate := false, currentMinute := -1,
    triggeredSchedules := [], smsQueue := [] }

/-- Monday 08:00 snapshot (day of month 13). -/
def tMon0800 : TimeInfo := { tm_min := 0, tm_mday := 13, hhmm := "08:00", dayName := "Monday" }

/-- Monday 08:01 snapshot. -/
def tMon0801 : TimeInfo := { tm_min := 1, tm_mday := 13, hhmm := "08:01", dayName := "Monday" }

/-- Enabled Monday-08:00 watering schedule with a non-numeric MongoDB-style
id. -/
def schedAbc : Schedule :=
  { id := "abc", type := "watering", time := "08:00", duration := 10, enabled := true,
    days := ["Monday"], moistureThreshold := 60, moistureMode := "manual", calendarDays := [] }

/-- A second, distinct enabled Monday-08:00 watering schedule, also with a
non-numeric id. -/
def schedDef : Schedule :=
  { id := "def", type := "watering", time := "08:00", duration := 5, enabled := true,
    days := ["Monday"], moistureThreshold := 60, moistureMode := "manual", calendarDays := [] }

/-- Enabled manual-mode watering schedule (first in list order for the
auto-mode counterexample). -/
def schedManual : Schedule :=
  { id := "w1", type := "watering", time := "09:00", duration := 10, enabled := true,
    days := ["Monday"], moistureThreshold := 60, moistureMode := "manual", calendarDays := [] }

/-- Enabled auto-mode watering schedule (second in list order). -/
def schedAuto : Schedule :=
  { id := "w2", type := "watering", time := "09:00", duration := 10, enabled := true,
    days := ["Monday"], moistureThreshold := 60, moistureMode := "auto", calendarDays := [] }

/-- Enabled fertilizing schedule for day 13 at 08:00. -/
def schedFert : Schedule :=
  { id := "f1", type := "fertilizing", time := "08:00", duration := 1, enabled := true,
    days := [], moistureThreshold := 60, moistureMode := "manual", calendarDays := [13] }

/-- A ready GSM state holding one queued message with no prior attempts. -/
def gsmOneMsg : GSMState :=
  { gsmStatus := .GSM_READY, lastGSMRetry := 0, lastSMSAttempt := 0,
    smsQueue := [⟨"msg", 0, 0⟩] }

/-- An errored GSM state, recovery cooldown expired, one queued message. -/
def gsmErr : GSMState :=
  { gsmStatus := .GSM_ERROR, lastGSMRetry := 0, lastSMSAttempt := 0,
    smsQueue := [⟨"m", 0, 0⟩] }

/-- A ready GSM state with two queued messages, used to witness the
head-only/FIFO theorem. -/
def gsmTwoMsg : GSMState :=
  { gsmStatus := .GSM_READY, lastGSMRetry := 0, lastSMSAttempt := 0,
    smsQueue := [⟨"a", 0, 0⟩, ⟨"b", 5, 0⟩] }

/-- A `LoopState` in which the water pump is running since `millis() = 0`. -/
def loopRunning : LoopState :=
  { loopInit with waterState := true }

/-- Enabled watering schedule whose moisture threshold is 40: the first (and
only) enabled watering schedule, i.e. the "controlling schedule" in the
sense of the auto-start lookup. -/
def schedW40 : Schedule :=
  { id := "w40", type := "watering", time := "09:00", duration := 10, enabled := true,
    days := ["Monday"], moistureThreshold := 40, moistureMode := "manual", calendarDays := [] }

/-- Tick inputs for the fertilizer scenario: fire at 08:00, start, run past
the 50 s duration, and observe the tick after the stop. -/
def fertTicks : List (Nat × Int × TimeInfo × String) :=
  [(1000, 50, tMon0800, "13"), (2000, 50, tMon0800, "13"),
   (60000, 50, tMon0801, "13"), (60100, 50, tMon0801, "13")]

end Plant

namespace Plant

/-! ## Claim theorems -/

/-- C10: for every integer moisture percent, `getMoistureStatus` returns
exactly one of "SENSOR ERROR" (input ≥ 95), "DRY" (input ≤ 35), "HUMID"
(36..65) or "WET" (66..94); the four guarded branches are exhaustive over
the integers, so the function coincides with its fallback-free form and the
trailing "SENSOR ERROR" return is unreachable. -/
theorem moisture_status_exhaustive :
    ∀ n : Int,
      (getMoistureStatus n = "SENSOR ERROR" ↔ 95 ≤ n) ∧
      (getMoistureStatus n = "DRY" ↔ n ≤ 35) ∧
      (getMoistureStatus n = "HUMID" ↔ 36 ≤ n ∧ n ≤ 65) ∧
      (getMoistureStatus n = "WET" ↔ 66 ≤ n ∧ n ≤ 94) ∧
      getMoistureStatus n =
        (if 95 ≤ n then "SENSOR ERROR" else if n ≤ 35 then "DRY"
         else if n ≤ 65 then "HUMID" else "WET") := by
  intro n
  unfold getMoistureStatus
  split_ifs with h1 h2 h3 h4 <;> refine ⟨?_, ?_, ?_, ?_, ?_⟩ <;> simp_all <;> omega

/-- C1: two distinct enabled schedules, both eligible in the same minute,
with distinct non-numeric MongoDB-style string ids: the ledger keys on
`schedule.id.toInt()`, which maps both ids to 0, so after "abc" fires and is
marked, "def" is suppressed and never fires that minute — the claimed
"each fires exactly once, keyed by opaque identity" fails on the code. -/
theorem ledger_int_keying_suppresses_second_schedule :
    schedAbc.enabled = true ∧ schedDef.enabled = true ∧ schedAbc.id ≠ schedDef.id ∧
    scheduleShouldRun schedAbc tMon0800 = true ∧
    scheduleShouldRun schedDef tMon0800 = true ∧
    ArduinoString.toInt schedAbc.id = 0 ∧ ArduinoString.toInt schedDef.id = 0 ∧
    (checkAndExecuteSchedules 0 tMon0800 [schedAbc, schedDef] sysInit).1 =
      [⟨"abc", "watering"⟩] ∧
    countFires "def" (checkAndExecuteSchedules 0 tMon0800 [schedAbc, schedDef] sysInit).1 = 0 := by
  decide

/-- C2 counterexample: at a watering FireEvent the code consults no moisture
value at all (`checkAndExecuteSchedules` takes none): the schedule is marked
fired AND `startWatering` runs unconditionally, so the pump starts and the
only notification enqueued is "Started watering", not a "skipped" one —
refuting the claim's "the water pump does not start" for an observed
moisture of 50 %. -/
theorem watering_fire_starts_pump_cex :
    (checkAndExecuteSchedules 500 tMon0800 [schedAbc] sysInit).1 = [⟨"abc", "watering"⟩] ∧
    ArduinoString.toInt schedAbc.id ∈
      (checkAndExecuteSchedules 500 tMon0800 [schedAbc] sysInit).2.triggered ∧
    (checkAndExecuteSchedules 500 tMon0800 [schedAbc] sysInit).2.waterState = true ∧
    (checkAndExecuteSchedules 500 tMon0800 [schedAbc] sysInit).2.smsQueue =
      [⟨"Smart Plant System: Started watering. Scheduled watering for 10 minutes", 0, 500⟩] := by
  decide

/-- C3 counterexample: with `MAX_SMS_RETRIES = 3` the drop test
`sms.retries >= MAX_SMS_RETRIES` runs before the increment, so three
consecutive failing drains (each past the cooldown) leave the message at the
head with `retries = 3`, and a fourth send attempt is made before the drop —
refuting "dropped once its failure count reaches 3, with no fourth send
attempt". -/
theorem sms_three_failures_leave_queue_cex :
    (runDrains true allFail [10000, 20000, 30000] gsmOneMsg).1.smsQueue =
      [⟨"msg", 3, 40000⟩] ∧
    (runDrains true allFail [10000, 20000, 30000] gsmOneMsg).2 = 3 ∧
    (runDrains true allFail [10000, 20000, 30000, 40000] gsmOneMsg).2 = 4 ∧
    (runDrains true allFail [10000, 20000, 30000, 40000] gsmOneMsg).1.smsQueue = [] := by
  decide

/-- C6: the fertilizer actuator does not run exactly once per FireEvent: the
run below contains a single fertilizing FireEvent (tick 1), the pump starts
(tick 2) and stops on duration (tick 3), yet tick 4 starts it again with no
new FireEvent, because `isScheduledDate` is set at fire time and never
cleared anywhere in `ESP32.cpp`. -/
theorem fertilizer_restarts_without_new_fire :
    (runLoopTicks fertTicks [schedFert] loopInit).2 = [⟨"f1", "fertilizing"⟩] ∧
    (runLoopTicks (fertTicks.take 2) [schedFert] loopInit).1.fertilizerState = true ∧
    (runLoopTicks (fertTicks.take 3) [schedFert] loopInit).1.fertilizerState = false ∧
    (runLoopTicks fertTicks [schedFert] loopInit).1.fertilizerState = true ∧
    (runLoopTicks fertTicks [schedFert] loopInit).1.isScheduledDate = true := by
  decide

/-- C7 counterexample: the auto-mode rule reads only the first enabled
watering schedule in list order; here the first is Manual and the second is
Auto with moisture 80 strictly between its threshold 60 and the ceiling 95,
yet nothing starts and the state is untouched — refuting "if at least one
enabled watering schedule has mode = Auto ... watering starts". -/
theorem auto_mode_skips_later_auto_schedule_cex :
    schedAuto.enabled = true ∧ schedAuto.type = "watering" ∧
    schedAuto.moistureMode = "auto" ∧
    schedAuto.moistureThreshold < 80 ∧ (80 : Int) < disconnectedThreshold ∧
    loopInit.waterState = false ∧
    (waterControlStep 1000 80 [schedManual, schedAuto] loopInit).waterState = false ∧
    (waterControlStep 1000 80 [schedManual, schedAuto] loopInit) = loopInit := by
  decide

end Plant

namespace Plant

/-! ## Helper lemmas about the schedule engine -/

/-- The fire action touches only actuator flags, timestamps and the SMS
queue, never the ledger or the remembered minute. -/
theorem execFire_ledger (ms : Nat) (s : Schedule) (st : SysState) :
    (execFire ms s st).triggered = st.triggered ∧
    (execFire ms s st).lastMinute = st.lastMinute := by
  unfold execFire startWatering startFertilizing
  split_ifs <;> simp

/-- Case analysis for one schedule: either nothing happens, or the schedule
fires, its `toInt` key is pushed on the ledger, and that key was not on the
ledger before. -/
theorem execSchedule_cases (ms : Nat) (t : TimeInfo) (s : Schedule) (st : SysState) :
    execSchedule ms t s st = (none, st) ∨
    ((execSchedule ms t s st).1 = some ⟨s.id, s.type⟩ ∧
     (execSchedule ms t s st).2.triggered = ArduinoString.toInt s.id :: st.triggered ∧
     (execSchedule ms t s st).2.lastMinute = st.lastMinute ∧
     ArduinoString.toInt s.id ∉ st.triggered) := by
  unfold execSchedule
  split_ifs with h1 h2
  · left; rfl
  · right
    push_neg at h1
    refine ⟨rfl, ?_, ?_, h1.2⟩
    · rw [(execFire_ledger ms s _).1]
    · rw [(execFire_ledger ms s _).2]
  · left; rfl

/-- Counting fires distributes over concatenation. -/
theorem countFires_append (x : String) (a b : List FireEvent) :
    countFires x (a ++ b) = countFires x a + countFires x b := by
  induction a with
  | nil => simp [countFires]
  | cons f fs ih => simp [countFires, ih]; omega

/-- The schedule loop never changes the remembered minute. -/
theorem execList_lastMinute (ms : Nat) (t : TimeInfo) (ss : List Schedule) (st : SysState) :
    (execSchedulesList ms t ss st).2.lastMinute = st.lastMinute := by
  induction ss generalizing st with
  | nil => rfl
  | cons s rest ih =>
    rcases execSchedule_cases ms t s st with h | ⟨h1, h2, h3, h4⟩
    · simp [execSchedulesList, h, ih]
    · simp only [execSchedulesList]
      rw [ih]; exact h3

/-- Ledger entries are never removed by the schedule loop. -/
theorem execList_mem (ms : Nat) (t : TimeInfo) (ss : List Schedule) (st : SysState) (n : Int) :
    n ∈ st.triggered → n ∈ (execSchedulesList ms t ss st).2.triggered := by
  induction ss generalizing st with
  | nil => intro h; exact h
  | cons s rest ih =>
    intro h
    rcases execSchedule_cases ms t s st with hc | ⟨h1, h2, h3, h4⟩
    · simp only [execSchedulesList, hc]
      exact ih st h
    · simp only [execSchedulesList]
      exact ih _ (by rw [h2]; exact List.mem_cons_of_mem _ h)

/-- A schedule whose `toInt` key is already on the ledger can never fire
during the loop. -/
theorem execList_absent (ms : Nat) (t : TimeInfo) (ss : List Schedule) (st : SysState)
    (x : String) :
    ArduinoString.toInt x ∈ st.triggered →
    countFires x (execSchedulesList ms t ss st).1 = 0 := by
  induction ss generalizing st with
  | nil => intro h; rfl
  | cons s rest ih =>
    intro h
    rcases execSchedule_cases ms t s st with hc | ⟨h1, h2, h3, h4⟩
    · simp only [execSchedulesList, hc, Option.toList_none, List.nil_append]
      exact ih st h
    · simp only [execSchedulesList, h1, Option.toList_some, List.singleton_append]
      have hne : s.id ≠ x := by
        intro he
        exact h4 (he ▸ h)
      have hrest : countFires x (execSchedulesList ms t rest (execSchedule ms t s st).2).1 = 0 :=
        ih _ (by rw [h2]; exact List.mem_cons_of_mem _ h)
      simp [countFires, hne, hrest]

/-- Any fire of schedule id `x` leaves `toInt x` on the final ledger. -/
theorem execList_marks (ms : Nat) (t : TimeInfo) (ss : List Schedule) (st : SysState)
    (x : String) :
    1 ≤ countFires x (execSchedulesList ms t ss st).1 →
    ArduinoString.toInt x ∈ (execSchedulesList ms t ss st).2.triggered := by
  induction ss generalizing st with
  | nil => intro h; simp [execSchedulesList, countFires] at h
  | cons s rest ih =>
    intro h
    rcases execSchedule_cases ms t s st with hc | ⟨h1, h2, h3, h4⟩
    · simp only [execSchedulesList, hc, Option.toList_none, List.nil_append] at h ⊢
      exact ih st h
    · by_cases hsx : s.id = x
      · simp only [execSchedulesList]
        apply execList_mem
        rw [h2, hsx]
        exact List.mem_cons_self _ _
      · simp only [execSchedulesList, h1, Option.toList_some, List.singleton_append] at h ⊢
        simp [countFires, hsx] at h
        exact ih _ h

/-- Within one pass of the schedule loop, a given schedule id fires at most
once. -/
theorem execList_once (ms : Nat) (t : TimeInfo) (ss : List Schedule) (st : SysState)
    (x : String) :
    countFires x (execSchedulesList ms t ss st).1 ≤ 1 := by
  induction ss generalizing st with
  | nil => simp [execSchedulesList, countFires]
  | cons s rest ih =>
    rcases execSchedule_cases ms t s st with hc | ⟨h1, h2, h3, h4⟩
    · simp only [execSchedulesList, hc, Option.toList_none, List.nil_append]
      exact ih st
    · simp only [execSchedulesList, h1, Option.toList_some, List.singleton_append]
      by_cases hsx : s.id = x
      · have h0 : countFires x (execSchedulesList ms t rest (execSchedule ms t s st).2).1 = 0 := by
          apply execList_absent
          rw [h2, hsx]
          exact List.mem_cons_self _ _
        simp [countFires, hsx, h0]
      · have hr := ih ((execSchedule ms t s st).2)
        simp [countFires, hsx]
        exact hr

/-- After `checkAndExecuteSchedules` the remembered minute is the observed
`tm_min`, whether or not the ledger was cleared. -/
theorem checkAndExecute_lastMinute (ms : Nat) (t : TimeInfo) (ss : List Schedule)
    (st : SysState) :
    (checkAndExecuteSchedules ms t ss st).2.lastMinute = t.tm_min := by
  simp only [checkAndExecuteSchedules]
  split_ifs with h
  · rw [execList_lastMinute]
  · rw [execList_lastMinute]
    push_neg at h
    exact h.symm

/-- One `checkAndExecuteSchedules` call fires a given schedule id at most
once. -/
theorem checkAndExecute_once (ms : Nat) (t : TimeInfo) (ss : List Schedule) (st : SysState)
    (x : String) :
    countFires x (checkAndExecuteSchedules ms t ss st).1 ≤ 1 := by
  simp only [checkAndExecuteSchedules]
  split_ifs <;> exact execList_once ms t ss _ x

/-- In an unchanged minute a marked schedule id cannot fire again, and stays
marked. -/
theorem checkAndExecute_absent (ms : Nat) (t : TimeInfo) (ss : List Schedule) (st : SysState)
    (x : String) (hm : t.tm_min = st.lastMinute)
    (h : ArduinoString.toInt x ∈ st.triggered) :
    countFires x (checkAndExecuteSchedules ms t ss st).1 = 0 ∧
    ArduinoString.toInt x ∈ (checkAndExecuteSchedules ms t ss st).2.triggered := by
  simp only [checkAndExecuteSchedules]
  rw [if_neg (by simp [hm])]
  exact ⟨execList_absent ms t ss st x h, execList_mem ms t ss st _ h⟩

/-- Any fire of schedule id `x` leaves `toInt x` on the ledger after the
call. -/
theorem checkAndExecute_marks (ms : Nat) (t : TimeInfo) (ss : List Schedule) (st : SysState)
    (x : String) :
    1 ≤ countFires x (checkAndExecuteSchedules ms t ss st).1 →
    ArduinoString.toInt x ∈ (checkAndExecuteSchedules ms t ss st).2.triggered := by
  simp only [checkAndExecuteSchedules]
  split_ifs <;> exact execList_marks ms t ss _ x

/-- Once a schedule id is marked and the minute does not advance, no further
tick in that minute fires it. -/
theorem runTicks_absent (ticks : List (Nat × TimeInfo × List Schedule)) (x : String) (m : Int) :
    ∀ st : SysState, (∀ tk ∈ ticks, tk.2.1.tm_min = m) → st.lastMinute = m →
    ArduinoString.toInt x ∈ st.triggered →
    countFires x (runTicks ticks st).1 = 0 := by
  induction ticks with
  | nil => intro st _ _ _; rfl
  | cons tk rest ih =>
    obtain ⟨ms, t, ss⟩ := tk
    intro st hall hlm hmem
    have ht : t.tm_min = m := hall _ (List.mem_cons_self _ _)
    have hall' : ∀ tk ∈ rest, tk.2.1.tm_min = m := fun tk h => hall tk (List.mem_cons_of_mem _ h)
    have habs := checkAndExecute_absent ms t ss st x (by rw [ht, hlm]) hmem
    simp only [runTicks]
    rw [countFires_append, habs.1]
    rw [ih _ hall' (by rw [checkAndExecute_lastMinute]; exact ht) habs.2]

/-- Across any number of ticks all observed in the same calendar minute, a
given schedule id fires at most once. -/
theorem runTicks_once (ticks : List (Nat × TimeInfo × List Schedule)) (x : String) (m : Int) :
    ∀ st : SysState, (∀ tk ∈ ticks, tk.2.1.tm_min = m) →
    countFires x (runTicks ticks st).1 ≤ 1 := by
  induction ticks with
  | nil => intro st _; simp [runTicks, countFires]
  | cons tk rest ih =>
    obtain ⟨ms, t, ss⟩ := tk
    intro st hall
    have ht : t.tm_min = m := hall _ (List.mem_cons_self _ _)
    have hall' : ∀ tk ∈ rest, tk.2.1.tm_min = m := fun tk h => hall tk (List.mem_cons_of_mem _ h)
    simp only [runTicks]
    rw [countFires_append]
    rcases Nat.eq_zero_or_pos (countFires x (checkAndExecuteSchedules ms t ss st).1) with h0 | h1
    · rw [h0]
      simpa using ih _ hall'
    · have hmem := checkAndExecute_marks ms t ss st x h1
      rw [runTicks_absent rest x m _ hall'
            (by rw [checkAndExecute_lastMinute]; exact ht) hmem]
      have := checkAndExecute_once ms t ss st x
      omega

/-- C5: (at-most-once) for every schedule id and calendar minute, any run of
ticks all observed within that minute emits at most one FireEvent for that
id, and (ledger reset) once the observed minute differs from the remembered
one the whole ledger is cleared before evaluation, so an enabled, matching
schedule fires even if its key was marked in the previous minute. -/
theorem schedule_at_most_once_per_minute_and_reset :
    (∀ (ticks : List (Nat × TimeInfo × List Schedule)) (st : SysState) (x : String) (m : Int),
       (∀ tk ∈ ticks, tk.2.1.tm_min = m) →
       countFires x (runTicks ticks st).1 ≤ 1) ∧
    (∀ (ms : Nat) (t : TimeInfo) (s : Schedule) (st : SysState),
       t.tm_min ≠ st.lastMinute → s.enabled = true → scheduleShouldRun s t = true →
       (checkAndExecuteSchedules ms t [s] st).1 = [⟨s.id, s.type⟩]) := by
  constructor
  · exact fun ticks st x m h => runTicks_once ticks x m st h
  · intro ms t s st hm hen hrun
    simp [checkAndExecuteSchedules, if_pos hm, execSchedulesList, execSchedule, hen, hrun]

/-- Witness for C5: two ticks in the same minute fire "abc" at most once,
and a schedule whose key is marked from a previous minute fires again as
soon as the minute changes. -/
theorem schedule_at_most_once_per_minute_and_reset_witness :
    countFires "abc"
      (runTicks [(0, tMon0800, [schedAbc, schedDef]), (100, tMon0800, [schedAbc, schedDef])]
        sysInit).1 ≤ 1 ∧
    (checkAndExecuteSchedules 0 tMon0800 [schedFert]
        { sysInit with lastMinute := 5, triggered := [0] }).1 = [⟨"f1", "fertilizing"⟩] := by
  constructor
  · exact schedule_at_most_once_per_minute_and_reset.1 _ sysInit "abc" 0 (by decide)
  · exact schedule_at_most_once_per_minute_and_reset.2 0 tMon0800 schedFert
      { sysInit with lastMinute := 5, triggered := [0] } (by decide) (by decide) (by decide)

end Plant

namespace Plant

/-- C2 (amended): when a watering FireEvent occurs (enabled, not yet marked,
recurrence and time match), the schedule is marked fired in the ledger and
the water pump starts unconditionally — no fire-time moisture gate exists —
and the notification enqueued is the "Started watering" message carrying the
schedule's duration. -/
theorem watering_fire_unconditional_start (ms : Nat) (t : TimeInfo) (s : Schedule)
    (st : SysState) (htype : s.type = "watering") (hen : s.enabled = true)
    (hrun : scheduleShouldRun s t = true)
    (hfresh : ArduinoString.toInt s.id ∉ st.triggered) :
    (execSchedule ms t s st).1 = some ⟨s.id, "watering"⟩ ∧
    ArduinoString.toInt s.id ∈ (execSchedule ms t s st).2.triggered ∧
    (execSchedule ms t s st).2.waterState = true ∧
    (execSchedule ms t s st).2.smsQueue =
      st.smsQueue ++ [⟨"Smart Plant System: Started watering. " ++
                      ("Scheduled watering for " ++ toString s.duration ++ " minutes"),
                      0, ms⟩] := by
  unfold execSchedule execFire
  rw [if_neg (by simp [hen, hfresh]), if_pos hrun, if_pos (by simp [htype])]
  simp [startWatering, queueSMS, htype]

/-- Witness for C2 (amended): the Monday-08:00 fire of `schedAbc` marks the
ledger, raises `waterState` and enqueues the started SMS. -/
theorem watering_fire_unconditional_start_witness :
    (execSchedule 500 tMon0800 schedAbc sysInit).1 = some ⟨"abc", "watering"⟩ ∧
    ArduinoString.toInt schedAbc.id ∈ (execSchedule 500 tMon0800 schedAbc sysInit).2.triggered ∧
    (execSchedule 500 tMon0800 schedAbc sysInit).2.waterState = true ∧
    (execSchedule 500 tMon0800 schedAbc sysInit).2.smsQueue =
      sysInit.smsQueue ++ [⟨"Smart Plant System: Started watering. " ++
                           ("Scheduled watering for " ++ toString schedAbc.duration ++
                            " minutes"), 0, 500⟩] := by
  exact watering_fire_unconditional_start 500 tMon0800 schedAbc sysInit rfl rfl
    (by decide) (by decide)

/-- C4 counterexample: the controlling (first enabled watering) schedule has
dry/stop threshold 40 while moisture is 50 past the 30 s duration.  Per the
claim, neither (a) (50 < 95) nor (b) (50 > 40, the schedule's threshold)
holds, so the emitted reason should be "duration completed"; the code's stop
path compares against the fixed global `dryThreshold = 60` instead
(`ESP32.cpp` line 800) — it never reads the schedule's threshold — and
reports "Target moisture level reached", refuting the claim's condition
(b). -/
theorem water_stop_uses_global_threshold_cex :
    findEnabledWatering [schedW40] = some schedW40 ∧
    schedW40.moistureThreshold = 40 ∧
    ¬((50 : Int) ≤ schedW40.moistureThreshold) ∧
    (50 : Int) < disconnectedThreshold ∧
    waterOnDuration ≤ 40000 - loopRunning.previousWaterMillis ∧
    waterStopCondition 40000 loopRunning.previousWaterMillis 50 = true ∧
    waterStopReason 50 = "Target moisture level reached" ∧
    waterStopReason 50 ≠ "Duration completed" ∧
    (waterControlStep 40000 50 [schedW40] loopRunning).waterState = false ∧
    (waterControlStep 40000 50 [schedW40] loopRunning).smsQueue =
      [⟨"Smart Plant System: Watering stopped. Soil is now humid/wet.", 0, 40000⟩] := by
  decide

/-- C4 (amended): while watering runs (the `ESP32.cpp` loop stop path), the
stop test is the disjunction of duration, dry-threshold and
disconnect-ceiling conditions, and the reported reason is selected by the
fixed chain (a) moisture at/above the 95 disconnect ceiling, then (b)
moisture at/below the fixed global dry threshold `dryThreshold = 60` — the
controlling schedule's own threshold is never consulted by the stop path,
as the conclusion's independence from the schedule list `ss` shows — then
(c) duration; only the first matching reason is emitted, and on stop the
pump goes off with the corresponding SMS. -/
theorem water_stop_reason_priority (cm : Nat) (m : Int) (ss : List Schedule) (st : LoopState)
    (hrun : st.waterState = true) :
    (waterStopCondition cm st.previousWaterMillis m = true ↔
       (waterOnDuration ≤ cm - st.previousWaterMillis ∨ m ≤ dryThreshold ∨
        disconnectedThreshold ≤ m)) ∧
    (disconnectedThreshold ≤ m → waterStopReason m = "Sensor disconnected or not in soil") ∧
    (m < disconnectedThreshold → m ≤ dryThreshold →
       waterStopReason m = "Target moisture level reached") ∧
    (m < disconnectedThreshold → dryThreshold < m → waterStopReason m = "Duration completed") ∧
    (waterStopCondition cm st.previousWaterMillis m = true →
       (waterControlStep cm m ss st).waterState = false ∧
       (waterControlStep cm m ss st).smsQueue = st.smsQueue ++ [⟨waterStopSMS m, 0, cm⟩]) := by
  refine ⟨?_, ?_, ?_, ?_, ?_⟩
  · simp [waterStopCondition, ge_iff_le, or_assoc]
  · intro h
    unfold waterStopReason
    rw [if_pos h]
  · intro h1 h2
    unfold waterStopReason
    rw [if_neg (by omega), if_pos h2]
  · intro h1 h2
    unfold waterStopReason
    rw [if_neg (by omega), if_neg (by omega)]
  · intro hc
    unfold waterControlStep
    rw [hrun]
    simp [hc, queueSMS]

/-- Witness for C4: `moisture = 96` while running past both the threshold
test and the 30 s duration: the stop fires and the emitted reason/SMS is the
sensor-disconnected one, not "Duration completed". -/
theorem water_stop_reason_priority_witness :
    waterStopCondition 40000 loopRunning.previousWaterMillis 96 = true ∧
    waterStopReason 96 = "Sensor disconnected or not in soil" ∧
    waterStopSMS 96 =
      "Smart Plant System: Watering stopped. Reason: Sensor disconnected or not in soil." ∧
    (waterControlStep 40000 96 [] loopRunning).waterState = false ∧
    (waterControlStep 40000 96 [] loopRunning).smsQueue =
      loopRunning.smsQueue ++ [⟨waterStopSMS 96, 0, 40000⟩] := by
  have h := water_stop_reason_priority 40000 96 [] loopRunning rfl
  have hc : waterStopCondition 40000 loopRunning.previousWaterMillis 96 = true :=
    h.1.mpr (by decide)
  exact ⟨hc, h.2.1 (by decide), by decide, (h.2.2.2.2 hc).1, (h.2.2.2.2 hc).2⟩

/-- C7 (amended): the tick-wise auto-mode rule consults only the first
enabled watering schedule in list order; when the pump is idle, that
schedule's mode is "auto" and moisture lies strictly between its threshold
and the disconnect ceiling, watering starts, the start time is recorded, and
the "Started watering" notification carries that schedule's threshold and
the moisture reading. -/
theorem auto_mode_first_enabled_rule (cm : Nat) (m : Int) (ss : List Schedule) (st : LoopState)
    (s : Schedule) (hidle : st.waterState = false)
    (hfind : findEnabledWatering ss = some s) (hauto : s.moistureMode = "auto")
    (hlo : s.moistureThreshold < m) (hhi : m < disconnectedThreshold) :
    (waterControlStep cm m ss st).waterState = true ∧
    (waterControlStep cm m ss st).previousWaterMillis = cm ∧
    (waterControlStep cm m ss st).smsQueue = st.smsQueue ++
      [⟨"Smart Plant System: Started watering. Soil is dry (" ++ toString m ++
        "%, Threshold: " ++ toString s.moistureThreshold ++ "%)", 0, cm⟩] := by
  unfold waterControlStep
  rw [hidle]
  simp only [Bool.false_eq_true, if_false, hfind]
  rw [if_pos (by simp [hauto, hlo, hhi])]
  simp [queueSMS]

/-- Witness for C7 (amended): with `schedAuto` first in the list, the pump
idle and moisture 80 strictly between 60 and 95, watering starts at
`millis() = 1000` and the SMS carries "80" and "60". -/
theorem auto_mode_first_enabled_rule_witness :
    (waterControlStep 1000 80 [schedAuto] loopInit).waterState = true ∧
    (waterControlStep 1000 80 [schedAuto] loopInit).previousWaterMillis = 1000 ∧
    (waterControlStep 1000 80 [schedAuto] loopInit).smsQueue = loopInit.smsQueue ++
      [⟨"Smart Plant System: Started watering. Soil is dry (" ++ toString (80 : Int) ++
        "%, Threshold: " ++ toString schedAuto.moistureThreshold ++ "%)", 0, 1000⟩] := by
  exact auto_mode_first_enabled_rule 1000 80 [schedAuto] loopInit schedAuto rfl
    (by decide) rfl (by decide) (by decide)

end Plant

namespace Plant

/-- A drain call in `GSM_READY` state with a due head past the cooldown,
where every recipient fails softly: the global cooldown stamp moves to
`now`, and the head is popped exactly when its pre-attempt `retries` already
reached `MAX_SMS_RETRIES`, otherwise bumped and left at the head. -/
theorem processSMSQueue_allFail_step (now : Nat) (hs : Bool) (g : GSMState) (sms : SMSMessage)
    (rest : List SMSMessage) (hready : g.gsmStatus = .GSM_READY) (hq : g.smsQueue = sms :: rest)
    (hcool : g.lastSMSAttempt + SMS_RETRY_INTERVAL ≤ now) (hdue : sms.nextAttempt ≤ now) :
    processSMSQueue now hs allFail g =
      (⟨.GSM_READY, g.lastGSMRetry, now,
        if MAX_SMS_RETRIES ≤ sms.retries then rest
        else ⟨sms.message, sms.retries + 1, now + SMS_RETRY_INTERVAL⟩ :: rest⟩, true) := by
  have hsend : sendAttempt allFail 0 NUM_PHONES GSMStatus.GSM_READY = (false, .GSM_READY) := rfl
  have hnotlt : ¬(now - g.lastSMSAttempt < SMS_RETRY_INTERVAL) := by omega
  simp only [processSMSQueue, hq, hready, hsend, hnotlt]
  simp [hdue]
  split_ifs with h <;> rfl

/-- C3 (amended): a queued message whose send attempts all fail is attempted
at most `MAX_SMS_RETRIES + 1 = 4` times: the drop test compares the failure
count before incrementing it, so three consecutive failing drains past the
cooldown leave the message at the head with `retries = 3`, and the fourth
failing drain makes one final attempt and drops the message, emptying the
queue — no fifth attempt occurs. -/
theorem sms_retry_cap_four_attempts (t1 t2 t3 t4 na lr ls : Nat) (msg : String)
    (h0 : na ≤ t1) (h1 : ls + SMS_RETRY_INTERVAL ≤ t1) (h2 : t1 + SMS_RETRY_INTERVAL ≤ t2)
    (h3 : t2 + SMS_RETRY_INTERVAL ≤ t3) (h4 : t3 + SMS_RETRY_INTERVAL ≤ t4) :
    (runDrains true allFail [t1, t2, t3]
        ⟨.GSM_READY, lr, ls, [⟨msg, 0, na⟩]⟩).1.smsQueue =
      [⟨msg, 3, t3 + SMS_RETRY_INTERVAL⟩] ∧
    (runDrains true allFail [t1, t2, t3] ⟨.GSM_READY, lr, ls, [⟨msg, 0, na⟩]⟩).2 = 3 ∧
    (runDrains true allFail [t1, t2, t3, t4]
        ⟨.GSM_READY, lr, ls, [⟨msg, 0, na⟩]⟩).1.smsQueue = [] ∧
    (runDrains true allFail [t1, t2, t3, t4] ⟨.GSM_READY, lr, ls, [⟨msg, 0, na⟩]⟩).2 = 4 := by
  have s1 := processSMSQueue_allFail_step t1 true ⟨.GSM_READY, lr, ls, [⟨msg, 0, na⟩]⟩
    ⟨msg, 0, na⟩ [] rfl rfl h1 h0
  rw [if_neg (by norm_num [MAX_SMS_RETRIES])] at s1
  norm_num at s1
  have s2 := processSMSQueue_allFail_step t2 true
    ⟨.GSM_READY, lr, t1, [⟨msg, 1, t1 + SMS_RETRY_INTERVAL⟩]⟩
    ⟨msg, 1, t1 + SMS_RETRY_INTERVAL⟩ [] rfl rfl (by exact h2) (by exact h2)
  rw [if_neg (by norm_num [MAX_SMS_RETRIES])] at s2
  norm_num at s2
  have s3 := processSMSQueue_allFail_step t3 true
    ⟨.GSM_READY, lr, t2, [⟨msg, 2, t2 + SMS_RETRY_INTERVAL⟩]⟩
    ⟨msg, 2, t2 + SMS_RETRY_INTERVAL⟩ [] rfl rfl (by exact h3) (by exact h3)
  rw [if_neg (by norm_num [MAX_SMS_RETRIES])] at s3
  norm_num at s3
  have s4 := processSMSQueue_allFail_step t4 true
    ⟨.GSM_READY, lr, t3, [⟨msg, 3, t3 + SMS_RETRY_INTERVAL⟩]⟩
    ⟨msg, 3, t3 + SMS_RETRY_INTERVAL⟩ [] rfl rfl (by exact h4) (by exact h4)
  rw [if_pos (by norm_num [MAX_SMS_RETRIES])] at s4
  have hrun3 : runDrains true allFail [t1, t2, t3] ⟨.GSM_READY, lr, ls, [⟨msg, 0, na⟩]⟩ =
      (⟨.GSM_READY, lr, t3, [⟨msg, 3, t3 + SMS_RETRY_INTERVAL⟩]⟩, 3) := by
    simp only [runDrains, s1, s2, s3]
    norm_num
  have hrun4 : runDrains true allFail [t1, t2, t3, t4] ⟨.GSM_READY, lr, ls, [⟨msg, 0, na⟩]⟩ =
      (⟨.GSM_READY, lr, t4, []⟩, 4) := by
    simp only [runDrains, s1, s2, s3, s4]
    norm_num
  exact ⟨by rw [hrun3], by rw [hrun3], by rw [hrun4], by rw [hrun4]⟩

/-- Witness for C3 (amended): concrete drains at 10 s spacing — three
failures leave the message queued with `retries = 3`, the fourth drain makes
the fourth attempt and empties the queue. -/
theorem sms_retry_cap_four_attempts_witness :
    (runDrains true allFail [10000, 20000, 30000]
        ⟨.GSM_READY, 0, 0, [⟨"m1", 0, 0⟩]⟩).1.smsQueue =
      [⟨"m1", 3, 30000 + SMS_RETRY_INTERVAL⟩] ∧
    (runDrains true allFail [10000, 20000, 30000] ⟨.GSM_READY, 0, 0, [⟨"m1", 0, 0⟩]⟩).2 = 3 ∧
    (runDrains true allFail [10000, 20000, 30000, 40000]
        ⟨.GSM_READY, 0, 0, [⟨"m1", 0, 0⟩]⟩).1.smsQueue = [] ∧
    (runDrains true allFail [10000, 20000, 30000, 40000]
        ⟨.GSM_READY, 0, 0, [⟨"m1", 0, 0⟩]⟩).2 = 4 := by
  exact sms_retry_cap_four_attempts 10000 20000 30000 40000 0 0 0 "m1"
    (by decide) (by decide) (by decide) (by decide) (by decide)

/-- C8: while the session is in `GSM_ERROR`, a drain call never reaches the
send loop — it only polls `checkGSMStatus` and leaves the queue alone — and
the recovery handshake is attempted only once `GSM_RETRY_INTERVAL` has
elapsed since `lastGSMRetry`; when attempted, `lastGSMRetry` is set to `now`
whatever the handshake outcome (the outcome `hs` is universally
quantified). -/
theorem error_state_gates_send_and_recovery (now : Nat) (hs : Bool) (send : Nat → SendOutcome)
    (g : GSMState) (herr : g.gsmStatus = .GSM_ERROR) :
    processSMSQueue now hs send g = (checkGSMStatus now hs g, false) ∧
    (now - g.lastGSMRetry < GSM_RETRY_INTERVAL → checkGSMStatus now hs g = g) ∧
    (GSM_RETRY_INTERVAL ≤ now - g.lastGSMRetry →
       (checkGSMStatus now hs g).gsmStatus = initGSM hs ∧
       (checkGSMStatus now hs g).lastGSMRetry = now ∧
       (checkGSMStatus now hs g).smsQueue = g.smsQueue) := by
  refine ⟨?_, ?_, ?_⟩
  · unfold processSMSQueue
    rw [if_pos (by simp [herr])]
  · intro h
    unfold checkGSMStatus
    rw [if_neg (by rintro ⟨-, hc⟩; omega)]
  · intro h
    unfold checkGSMStatus
    rw [if_pos ⟨herr, h⟩]
    exact ⟨rfl, rfl, rfl⟩

/-- Witness for C8: an errored session with an expired recovery cooldown and
a failing handshake: the drain does recovery only, and the retry stamp still
advances to `now` although the handshake failed. -/
theorem error_state_gates_send_and_recovery_witness :
    processSMSQueue 60000 false allFail gsmErr = (checkGSMStatus 60000 false gsmErr, false) ∧
    (checkGSMStatus 60000 false gsmErr).gsmStatus = initGSM false ∧
    (checkGSMStatus 60000 false gsmErr).lastGSMRetry = 60000 ∧
    (checkGSMStatus 60000 false gsmErr).smsQueue = gsmErr.smsQueue := by
  have h := error_state_gates_send_and_recovery 60000 false allFail gsmErr rfl
  exact ⟨h.1, (h.2.2 (by decide)).1, (h.2.2 (by decide)).2.1, (h.2.2 (by decide)).2.2⟩

/-- C9: a drain consumes a send attempt only when the module is ready, the
queue non-empty, the shared global cooldown elapsed and the head due; when
no attempt is consumed the queue is untouched, and in every case the result
queue is the old queue, its tail, or the bumped head in front of the
unchanged tail — so messages leave the queue (delivered or dropped) only
from the head, in FIFO enqueue order, and a failed head below the retry cap
remains at the head. -/
theorem drain_head_only_fifo (now : Nat) (hs : Bool) (send : Nat → SendOutcome) (g : GSMState) :
    ((processSMSQueue now hs send g).2 = true →
       g.gsmStatus = .GSM_READY ∧ g.smsQueue ≠ [] ∧
       SMS_RETRY_INTERVAL ≤ now - g.lastSMSAttempt) ∧
    ((processSMSQueue now hs send g).2 = false →
       (processSMSQueue now hs send g).1.smsQueue = g.smsQueue) ∧
    (∀ sms rest, g.smsQueue = sms :: rest →
       ((processSMSQueue now hs send g).2 = true → sms.nextAttempt ≤ now) ∧
       ((processSMSQueue now hs send g).1.smsQueue = sms :: rest ∨
        (processSMSQueue now hs send g).1.smsQueue = rest ∨
        (processSMSQueue now hs send g).1.smsQueue =
          ⟨sms.message, sms.retries + 1, now + SMS_RETRY_INTERVAL⟩ :: rest) ∧
       ((processSMSQueue now hs send g).2 = true →
        (sendAttempt send 0 NUM_PHONES g.gsmStatus).1 = false →
        sms.retries < MAX_SMS_RETRIES →
        (processSMSQueue now hs send g).1.smsQueue =
          ⟨sms.message, sms.retries + 1, now + SMS_RETRY_INTERVAL⟩ :: rest)) := by
  have hcq : ∀ (n : Nat) (b : Bool), (checkGSMStatus n b g).smsQueue = g.smsQueue := by
    intro n b; unfold checkGSMStatus; split_ifs <;> rfl
  by_cases hst : g.gsmStatus = GSMStatus.GSM_READY
  · by_cases hgate : g.smsQueue = [] ∨ now - g.lastSMSAttempt < SMS_RETRY_INTERVAL
    · have hres : processSMSQueue now hs send g = (g, false) := by
        unfold processSMSQueue
        rw [if_neg (by simp [hst]), if_pos hgate]
      refine ⟨by rw [hres]; intro h; simp at h, fun _ => by rw [hres], ?_⟩
      intro sms rest hq
      exact ⟨by rw [hres]; intro h; simp at h, Or.inl (by rw [hres]; exact hq),
             by rw [hres]; intro h; simp at h⟩
    · push_neg at hgate
      obtain ⟨hne, hcool⟩ := hgate
      have hstn : ¬(g.gsmStatus ≠ GSMStatus.GSM_READY) := by simp [hst]
      have hnotlt : ¬(now - g.lastSMSAttempt < SMS_RETRY_INTERVAL) := by omega
      rcases hq0 : g.smsQueue with _ | ⟨sms0, rest0⟩
      · exact absurd hq0 hne
      · by_cases hdue : sms0.nextAttempt ≤ now
        · by_cases hpop : (sendAttempt send 0 NUM_PHONES g.gsmStatus).1 = true ∨
              MAX_SMS_RETRIES ≤ sms0.retries
          · have hres : processSMSQueue now hs send g =
                (⟨(sendAttempt send 0 NUM_PHONES g.gsmStatus).2, g.lastGSMRetry, now,
                  rest0⟩, true) := by
              simp only [processSMSQueue, hq0, hstn, hnotlt]
              simp [hdue, hpop]
            refine ⟨fun _ => ⟨hst, List.cons_ne_nil _ _, hcool⟩,
                    by rw [hres]; intro h; simp at h, ?_⟩
            intro sms rest hq
            injection hq with e1 e2
            subst e1
            subst e2
            refine ⟨fun _ => hdue, Or.inr (Or.inl (by rw [hres])), ?_⟩
            intro _ hfail hlt
            rcases hpop with hp | hp
            · rw [hfail] at hp; cases hp
            · omega
          · have hres : processSMSQueue now hs send g =
                (⟨(sendAttempt send 0 NUM_PHONES g.gsmStatus).2, g.lastGSMRetry, now,
                  ⟨sms0.message, sms0.retries + 1, now + SMS_RETRY_INTERVAL⟩ :: rest0⟩,
                 true) := by
              simp only [processSMSQueue, hq0, hstn, hnotlt]
              simp [hdue, hpop]
            refine ⟨fun _ => ⟨hst, List.cons_ne_nil _ _, hcool⟩,
                    by rw [hres]; intro h; simp at h, ?_⟩
            intro sms rest hq
            injection hq with e1 e2
            subst e1
            subst e2
            exact ⟨fun _ => hdue, Or.inr (Or.inr (by rw [hres])),
                   fun _ _ _ => by rw [hres]⟩
        · have hres : processSMSQueue now hs send g = (g, false) := by
            simp only [processSMSQueue, hq0, hstn, hnotlt]
            simp [hdue]
          refine ⟨by rw [hres]; intro h; simp at h,
                  fun _ => by rw [hres]; exact hq0, ?_⟩
          intro sms rest hq
          exact ⟨by rw [hres]; intro h; simp at h,
                 Or.inl (by rw [hres, hq0]; exact hq),
                 by rw [hres]; intro h; simp at h⟩
  · have hres : processSMSQueue now hs send g = (checkGSMStatus now hs g, false) := by
      unfold processSMSQueue
      rw [if_pos hst]
    refine ⟨by rw [hres]; intro h; simp at h, fun _ => by rw [hres]; exact hcq now hs, ?_⟩
    intro sms rest hq
    exact ⟨by rw [hres]; intro h; simp at h,
           Or.inl (by rw [hres]; rw [hcq now hs]; exact hq),
           by rw [hres]; intro h; simp at h⟩

/-- Witness for C9: a ready state with two queued messages, all sends
failing softly: the head is bumped in place and the second message is left
untouched behind it. -/
theorem drain_head_only_fifo_witness :
    gsmTwoMsg.gsmStatus = .GSM_READY ∧ gsmTwoMsg.smsQueue ≠ [] ∧
    SMS_RETRY_INTERVAL ≤ 10000 - gsmTwoMsg.lastSMSAttempt ∧
    (processSMSQueue 10000 true allFail gsmTwoMsg).1.smsQueue =
      ⟨"a", 0 + 1, 10000 + SMS_RETRY_INTERVAL⟩ :: [⟨"b", 5, 0⟩] := by
  have h := drain_head_only_fifo 10000 true allFail gsmTwoMsg
  have hg : (processSMSQueue 10000 true allFail gsmTwoMsg).2 = true := by decide
  refine ⟨(h.1 hg).1, (h.1 hg).2.1, (h.1 hg).2.2, ?_⟩
  exact (h.2.2 ⟨"a", 0, 0⟩ [⟨"b", 5, 0⟩] rfl).2.2 hg (by decide) (by decide)

end Plant
